import Mathlib

/-!
Verification of the polling/diffing/notification core of the
`astrbot_plugin_steam` plugin: a shallow embedding of the change-detection
and notification-routing logic of `task_service.py`, `notification_service.py`,
`dao.py` and `steam_api_client.py`, with theorems settling the spec's claims.
-/

namespace SteamPlugin

/-! ## Row-store model (dao.py)

The DAO wraps a SQL table with per-row primary keys.  We model a table as an
association list from key to value; `lookupRow` is `SELECT ... WHERE key=?`
(primary keys are unique, so first-match lookup suffices) and `upsertRow` is
the DAO's check-then-UPDATE-or-INSERT pattern used by both
`update_friend_status` and `mark_news_sent`. -/

def lookupRow {κ ν : Type} [DecidableEq κ] (db : List (κ × ν)) (k : κ) : Option ν :=
  (db.find? (fun r => decide (r.1 = k))).map (·.2)

def upsertRow {κ ν : Type} [DecidableEq κ] (db : List (κ × ν)) (k : κ) (v : ν) :
    List (κ × ν) :=
  match lookupRow db k with
  | some _ => db.map (fun r => if r.1 = k then (r.1, v) else r)
  | none => db ++ [(k, v)]

/-- Python-dict lookup over a list of key/value pairs built by a dict
comprehension: on duplicate keys the last entry wins (`dict` semantics). -/
def dictGet {κ ν : Type} [DecidableEq κ] (pairs : List (κ × ν)) (k : κ) : Option ν :=
  (pairs.reverse.find? (fun r => decide (r.1 = k))).map (·.2)

/-! ## Friend state (dao.py: friend_status table) -/

/-- `friend_status` table: key `(qq_id, friend_steamid)`, value `(status, gameinfo)`. -/
abbrev FriendDb := List ((String × String) × (Nat × String))

/-- `SteamDAO.get_friend_status`. -/
def getFriendStatus (db : FriendDb) (qq fsid : String) : Option (Nat × String) :=
  lookupRow db (qq, fsid)

/-- `SteamDAO.update_friend_status`: SELECT first, then UPDATE if a row exists,
else INSERT. -/
def updateFriendStatus (db : FriendDb) (qq fsid : String) (status : Nat)
    (gameinfo : String) : FriendDb :=
  upsertRow db (qq, fsid) (status, gameinfo)

/-! ## Store lemmas -/

theorem lookupRow_append_single {κ ν : Type} [DecidableEq κ]
    (db : List (κ × ν)) (k : κ) (v : ν) (h : lookupRow db k = none) :
    lookupRow (db ++ [(k, v)]) k = some v := by
  induction db with
  | nil => simp [lookupRow, List.find?]
  | cons r rest ih =>
      simp only [lookupRow, List.cons_append, List.find?] at h ⊢
      by_cases hk : r.1 = k
      · simp [hk] at h
      · simp only [decide_eq_false hk] at h ⊢
        exact ih h

theorem lookupRow_map_repl {κ ν : Type} [DecidableEq κ]
    (db : List (κ × ν)) (k : κ) (v : ν) :
    lookupRow (db.map (fun r => if r.1 = k then (r.1, v) else r)) k =
      (lookupRow db k).map (fun _ => v) := by
  induction db with
  | nil => simp [lookupRow]
  | cons r rest ih =>
      simp only [lookupRow, List.map_cons, List.find?] at ih ⊢
      by_cases hk : r.1 = k
      · simp [hk]
      · simp only [hk, if_false, decide_eq_false hk]
        exact ih

theorem map_repl_of_lookup_none {κ ν : Type} [DecidableEq κ]
    (db : List (κ × ν)) (k : κ) (v : ν) (h : lookupRow db k = none) :
    db.map (fun r => if r.1 = k then (r.1, v) else r) = db := by
  induction db with
  | nil => rfl
  | cons r rest ih =>
      simp only [lookupRow, List.find?] at h
      by_cases hk : r.1 = k
      · simp [hk] at h
      · simp only [decide_eq_false hk] at h
        simp only [List.map_cons, hk, if_false]
        rw [ih h]

theorem lookupRow_upsertRow_self {κ ν : Type} [DecidableEq κ]
    (db : List (κ × ν)) (k : κ) (v : ν) :
    lookupRow (upsertRow db k v) k = some v := by
  unfold upsertRow
  cases h : lookupRow db k with
  | none => exact lookupRow_append_single db k v h
  | some w => rw [lookupRow_map_repl, h]; rfl

theorem map_repl_map_repl {κ ν : Type} [DecidableEq κ]
    (db : List (κ × ν)) (k : κ) (v : ν) :
    (db.map (fun r => if r.1 = k then (r.1, v) else r)).map
        (fun r => if r.1 = k then (r.1, v) else r) =
      db.map (fun r => if r.1 = k then (r.1, v) else r) := by
  rw [List.map_map]
  apply List.map_congr_left
  intro r _
  by_cases hk : r.1 = k
  · simp [Function.comp, hk]
  · simp [Function.comp, hk]

theorem upsertRow_idem {κ ν : Type} [DecidableEq κ]
    (db : List (κ × ν)) (k : κ) (v : ν) :
    upsertRow (upsertRow db k v) k v = upsertRow db k v := by
  have hsome := lookupRow_upsertRow_self db k v
  cases h : lookupRow db k with
  | none =>
      have h1 : upsertRow db k v = db ++ [(k, v)] := by simp only [upsertRow, h]
      rw [h1] at hsome ⊢
      simp only [upsertRow, hsome]
      rw [List.map_append, map_repl_of_lookup_none db k v h]
      simp
  | some w =>
      have h1 : upsertRow db k v =
          db.map (fun r => if r.1 = k then (r.1, v) else r) := by
        simp only [upsertRow, h]
      rw [h1] at hsome ⊢
      simp only [upsertRow, hsome]
      exact map_repl_map_repl db k v

/-! ## Friend-presence evaluation
(task_service.py `monitor_friends` inner loop
 + notification_service.py `send_friend_status_notification`) -/

/-- One player record from the batched `GetPlayerSummaries` response;
`personastate` defaults to 0 and `gameextrainfo` to the empty string when the
fields are missing, as in the source's `.get` calls. -/
structure Player where
  steamid : String
  personaname : String
  personastate : Nat
  gameextrainfo : String
deriving DecidableEq

/-- `NotificationService.send_friend_status_notification`: returns the message
sent to the user, or `none` when the early return fires (no change at all, or
no message case applies). -/
def sendFriendStatusNotification (playerName game : String)
    (statusChanged gameChanged : Bool) : Option String :=
  if !statusChanged && !gameChanged then none
  else if game ≠ "" && gameChanged then
    some ("🎮 好友 " ++ playerName ++ " 开始游玩：" ++ game)
  else if game ≠ "" && statusChanged then
    some ("🎮 好友 " ++ playerName ++ " 正在游玩：" ++ game)
  else if statusChanged then
    some ("🔔 好友 " ++ playerName ++ " 已上线")
  else none

/-- The presence stored for a friend: `prev_state` is the row's `status` when
a row exists and `None` otherwise (`prev_state, prev_game = None, ""`). -/
def storedState : Option (Nat × String) → Option Nat
  | some pr => some pr.1
  | none => none

/-- The activity stored for a friend: the row's `gameinfo` when a row exists,
the empty string when none does (`prev_state, prev_game = None, ""`). -/
def storedGame : Option (Nat × String) → String
  | some pr => pr.2
  | none => ""

/-- The `changed` flag of the `monitor_friends` loop:
`prev_state is not None and state != prev_state` and then
`state > 0 and prev_state == 0`. -/
def friendChanged (prevState : Option Nat) (state : Nat) : Bool :=
  match prevState with
  | some ps => decide (state ≠ ps) && (decide (0 < state) && decide (ps = 0))
  | none => false

/-- The `game_changed` flag of the `monitor_friends` loop:
`prev_game != game and game`. -/
def friendGameChanged (prevGame game : String) : Bool :=
  decide (prevGame ≠ game) && decide (game ≠ "")

/-- One iteration of the `for p in summary` loop of
`SteamTaskService.monitor_friends`: state-change detection, notification, and
the unconditional `update_friend_status`.  Returns the notification (if any)
and the updated `friend_status` table. -/
def friendStep (qq : String) (p : Player) (db : FriendDb) :
    Option String × FriendDb :=
  let old := getFriendStatus db qq p.steamid
  let changed := friendChanged (storedState old) p.personastate
  let gameChanged := friendGameChanged (storedGame old) p.gameextrainfo
  let notif : Option String :=
    if changed || gameChanged then
      sendFriendStatusNotification p.personaname p.gameextrainfo changed gameChanged
    else none
  (notif, updateFriendStatus db qq p.steamid p.personastate p.gameextrainfo)

/-! ## News bookkeeping (dao.py: news_history table; task_service.py `check_game_news`) -/

/-- `news_history` table: key `(appid, news_id)`, value the `sent` flag. -/
abbrev NewsDb := List ((Nat × String) × Bool)

/-- `SteamDAO.check_news_sent`: returns the row's `sent` value, or `None` when
no row exists. -/
def checkNewsSent (db : NewsDb) (appid : Nat) (newsId : String) : Option Bool :=
  lookupRow db (appid, newsId)

/-- `SteamDAO.mark_news_sent`: `check_news_sent` first, INSERT when no row
exists, UPDATE otherwise — exactly the upsert pattern. -/
def markNewsSent (db : NewsDb) (appid : Nat) (newsId : String) (sent : Bool) : NewsDb :=
  upsertRow db (appid, newsId) sent

/-- Python truthiness of `not exists` where `exists : Optional[bool]`:
`None` and `False` are both falsy. -/
def pyNotOpt : Option Bool → Bool
  | none => true
  | some b => !b

/-- One iteration of the `for item in news_items` loop of
`SteamTaskService.check_game_news`: `if not exists` → notify and
`mark_news_sent(..., True)`; otherwise skip.  (The source's
`elif not exists` branch repeats the same condition and is dead code.)
Returns whether a notification was sent and the updated table. -/
def processNewsItem (db : NewsDb) (appid : Nat) (newsId : String) : Bool × NewsDb :=
  let seen := checkNewsSent db appid newsId
  if pyNotOpt seen then (true, markNewsSent db appid newsId true)
  else (false, db)

/-! ## Quiet hours (notification_service.py `_is_muted_time`) -/

/-- Python `str.split(sep)` for a one-character separator, over the string's
characters: `"a-b".split("-") == ["a","b"]`, `"".split("-") == [""]`,
`"a-".split("-") == ["a",""]`. -/
def splitOnChar (sep : Char) : List Char → List (List Char)
  | [] => [[]]
  | c :: rest =>
      let r := splitOnChar sep rest
      if c = sep then [] :: r
      else
        match r with
        | [] => [[c]]
        | h :: t => (c :: h) :: t

/-- Value of an ASCII digit character, `none` otherwise. -/
def digitVal (c : Char) : Option Nat :=
  if c.isDigit then some (c.toNat - 48) else none

/-- `strptime` `%H`/`%M` directive: one or two decimal digits (the whole field
must be consumed). -/
def parseNat1or2 (cs : List Char) : Option Nat :=
  match cs with
  | [c] => digitVal c
  | [c1, c2] => do pure ((← digitVal c1) * 10 + (← digitVal c2))
  | _ => none

/-- `datetime.strptime(s, "%H:%M").time()` as minutes since midnight:
hour `0..23` and minute `0..59` separated by a colon, nothing left over;
`none` models the `ValueError` that the caller catches. -/
def parseHM (cs : List Char) : Option Nat :=
  match splitOnChar ':' cs with
  | [hs, ms] => do
      let h ← parseNat1or2 hs
      let m ← parseNat1or2 ms
      if h ≤ 23 ∧ m ≤ 59 then pure (h * 60 + m) else none
  | _ => none

/-- `start, end = mute_range.split("-")` followed by the two `strptime` calls:
any failure (wrong number of parts, unparsable time) is `none`, which the
loop's `except: continue` skips. -/
def parseMuteRange (s : String) : Option (Nat × Nat) :=
  match splitOnChar '-' s.toList with
  | [a, b] => do
      let st ← parseHM a
      let en ← parseHM b
      pure (st, en)
  | _ => none

/-- `NotificationService._is_muted_time` with the current local wall-clock
time given as minutes since midnight: returns on the first range containing
the time under the non-wrapping test `start_time <= current_time <= end_time`;
unparsable entries are skipped; empty list returns `False`. -/
def isMutedTime (now : Nat) (muteRanges : List String) : Bool :=
  muteRanges.any (fun r =>
    match parseMuteRange r with
    | some (st, en) => decide (st ≤ now) && decide (now ≤ en)
    | none => false)

/-! ## Market price watch (task_service.py `check_game_discounts`, price pass) -/

/-- Target-reached test of `check_game_discounts`:
`current_price <= desired_price and (last_price is None or last_price > desired_price)`. -/
def priceTargetFires (desired : ℚ) (lastPrice : Option ℚ) (cur : ℚ) : Bool :=
  decide (cur ≤ desired) &&
    (match lastPrice with
     | none => true
     | some l => decide (desired < l))

/-- Volatility test of `check_game_discounts`: only when a prior price exists
and `last_price > 0`, fire when `abs(current - last) / last * 100 >= threshold`. -/
def volatilityFires (threshold : ℚ) (lastPrice : Option ℚ) (cur : ℚ) : Bool :=
  match lastPrice with
  | none => false
  | some l => if 0 < l then decide (threshold ≤ |cur - l| / l * 100) else false

/-- Outcome of processing one market watch whose price parsed successfully. -/
structure WatchOutcome where
  targetFired : Bool
  volatilityFired : Bool
  newLastPrice : ℚ
deriving DecidableEq

/-- Body of the `for ... in watches` loop for one watch with a successfully
parsed current price: `update_market_price` stores the new price, then the
target and volatility tests run independently against the price read from the
row at the start of the tick. -/
def processWatch (threshold desired : ℚ) (lastPrice : Option ℚ) (cur : ℚ) :
    WatchOutcome :=
  { targetFired := priceTargetFires desired lastPrice cur
    volatilityFired := volatilityFires threshold lastPrice cur
    newLastPrice := cur }

/-- Successive price-watch ticks over a sequence of parsed observations for one
watch: each tick tests against the stored prior price and then stores the
current one (`update_market_price`).  Returns the target-fired flag of each
tick in order. -/
def runPriceTargets (desired : ℚ) : Option ℚ → List ℚ → List Bool
  | _, [] => []
  | lastPrice, c :: rest =>
      priceTargetFires desired lastPrice c :: runPriceTargets desired (some c) rest

/-! ## Discount pass (task_service.py `check_game_discounts`, discount pass) -/

/-- One entry of the store's featured `specials` listing. -/
structure SpecialGame where
  gid : String
  name : String
  discountPercent : Nat
deriving DecidableEq

/-- One row of the `game_subscriptions` table. -/
structure Subscription where
  qq : String
  appid : Nat
  news : Bool
  deals : Bool
deriving DecidableEq

/-- `SteamDAO.get_deals_subscriptions`: `SELECT qq_id, appid ... WHERE deals=1`. -/
def getDealsSubscriptions (subs : List Subscription) : List (String × Nat) :=
  (subs.filter (·.deals)).map (fun s => (s.qq, s.appid))

/-- `discount_map = {game.get("id"): game for game in specials}`. -/
def discountMapOf (specials : List SpecialGame) : List (String × SpecialGame) :=
  specials.map (fun g => (g.gid, g))

/-- Discount pass of `SteamTaskService.check_game_discounts`: for each deals
subscription, `if str(appid) in discount_map` send a discount notification.
Returns the notifications sent this tick, as (qq_id, discounted game). -/
def discountPass (subs : List Subscription) (specials : List SpecialGame) :
    List (String × SpecialGame) :=
  (getDealsSubscriptions subs).filterMap (fun s =>
    (dictGet (discountMapOf specials) (toString s.2)).map (fun g => (s.1, g)))

/-- Two consecutive discount-pass ticks over the same subscriptions and the
same featured listing: the pass neither reads nor writes any stored discount
state, so the second tick sees exactly the same inputs. -/
def discountTwoTicks (subs : List Subscription) (specials : List SpecialGame) :
    List (String × SpecialGame) :=
  discountPass subs specials ++ discountPass subs specials

/-! ## Daily library stats (task_service.py `generate_library_stats`) -/

/-- One owned game from `GetOwnedGames`; `playtime_forever` is minutes and
defaults to 0 when absent. -/
structure OwnedGame where
  appid : Nat
  name : String
  playtimeForever : ℚ
deriving DecidableEq

/-- Body of the `for game in games` delta loop of `generate_library_stats`:
`current = playtime_forever / 60` hours,
`previous = yesterday_games.get(appid, 0)`, and
`if current_playtime > previous_playtime: daily_playtime += current - previous`. -/
def dailyStep (yesterdayGames : List (Nat × ℚ)) (acc : ℚ) (g : OwnedGame) : ℚ :=
  let cur := g.playtimeForever / 60
  let prev := (dictGet yesterdayGames g.appid).getD 0
  if prev < cur then acc + (cur - prev) else acc

/-- The `daily_playtime` accumulation of `generate_library_stats` given the
`yesterday_games` appid→hours pairs decoded from yesterday's snapshot. -/
def dailyPlaytime (yesterdayGames : List (Nat × ℚ)) (games : List OwnedGame) : ℚ :=
  games.foldl (dailyStep yesterdayGames) 0

/-- `generate_library_stats` delta for one user: 0 when no snapshot row exists
for yesterday, otherwise the accumulation over today's games. -/
def generateDailyPlaytime (yesterdayStats : Option (List (Nat × ℚ)))
    (games : List OwnedGame) : ℚ :=
  match yesterdayStats with
  | some y => dailyPlaytime y games
  | none => 0

/-! ## Presence-job tick (steam_api_client.py `request` + task_service.py `monitor_friends`) -/

/-- Outcome of one outbound HTTP GET: a decoded payload, or a transport
failure (`aiohttp.ClientError`: timeout, connection error, non-2xx raised by
`raise_for_status`). -/
inductive FetchOutcome (α : Type) where
  | ok (val : α)
  | transportError
deriving DecidableEq

/-- `SteamAPIClient.request` for `GetFriendList`, composed with the caller's
`data.get("friendslist", {}).get("friends", [])` extraction: the client
catches `ClientError` and returns the empty dict instead of raising, and the
extraction of the empty dict yields the empty list. -/
def requestFriendIds : FetchOutcome (List String) → List String
  | .ok ids => ids
  | .transportError => []

/-- Per-user friend processing: the `for p in summary` loop,
threading the `friend_status` table and collecting notifications. -/
def processFriends (qq : String) (ps : List Player) (db : FriendDb) :
    List String × FriendDb :=
  match ps with
  | [] => ([], db)
  | p :: rest =>
      let r1 := friendStep qq p db
      let r2 := processFriends qq rest r1.2
      (r1.1.toList ++ r2.1, r2.2)

/-- `SteamTaskService.monitor_friends`, one tick: iterate over all bindings;
fetch each user's friend list (empty on transport failure), `continue` when it
is empty, otherwise fetch the batched summaries and process each friend. -/
def monitorFriendsTick (fetch : String → FetchOutcome (List String))
    (summaries : List String → List Player) :
    List (String × String) → FriendDb → List String × FriendDb
  | [], db => ([], db)
  | (qq, sid) :: rest, db =>
      let ids := requestFriendIds (fetch sid)
      if ids.isEmpty then monitorFriendsTick fetch summaries rest db
      else
        let r1 := processFriends qq (summaries ids) db
        let r2 := monitorFriendsTick fetch summaries rest r1.2
        (r1.1 ++ r2.1, r2.2)

/-! ## Supporting lemmas -/

theorem processNewsItem_def (db : NewsDb) (appid : Nat) (newsId : String) :
    processNewsItem db appid newsId =
      if pyNotOpt (checkNewsSent db appid newsId) then
        (true, markNewsSent db appid newsId true)
      else (false, db) := rfl

theorem checkNewsSent_after (db : NewsDb) (appid : Nat) (newsId : String) :
    checkNewsSent (processNewsItem db appid newsId).2 appid newsId = some true := by
  rw [processNewsItem_def]
  cases h : checkNewsSent db appid newsId with
  | none =>
      exact lookupRow_upsertRow_self db (appid, newsId) true
  | some b =>
      cases b with
      | false =>
          exact lookupRow_upsertRow_self db (appid, newsId) true
      | true =>
          exact h

theorem friendStep_fst (qq : String) (p : Player) (db : FriendDb) :
    (friendStep qq p db).1 =
      (if friendChanged (storedState (getFriendStatus db qq p.steamid)) p.personastate
          || friendGameChanged (storedGame (getFriendStatus db qq p.steamid))
               p.gameextrainfo then
        sendFriendStatusNotification p.personaname p.gameextrainfo
          (friendChanged (storedState (getFriendStatus db qq p.steamid)) p.personastate)
          (friendGameChanged (storedGame (getFriendStatus db qq p.steamid))
            p.gameextrainfo)
      else none) := rfl

theorem sendFriendStatusNotification_isSome (playerName game : String)
    (sc gc : Bool) (hgc : gc = true → game ≠ "") :
    (sendFriendStatusNotification playerName game sc gc).isSome = (sc || gc) := by
  cases gc with
  | true =>
      have hne : game ≠ "" := hgc rfl
      cases sc <;> simp [sendFriendStatusNotification, hne]
  | false =>
      cases sc with
      | false => rfl
      | true => by_cases hg : game = "" <;> simp [sendFriendStatusNotification, hg]

theorem friendGameChanged_ne_empty (prevGame game : String)
    (h : friendGameChanged prevGame game = true) : game ≠ "" := by
  simp only [friendGameChanged, Bool.and_eq_true, decide_eq_true_eq] at h
  exact h.2

theorem friendStep_isSome (qq : String) (p : Player) (db : FriendDb) :
    (friendStep qq p db).1.isSome =
      (friendChanged (storedState (getFriendStatus db qq p.steamid)) p.personastate
        || friendGameChanged (storedGame (getFriendStatus db qq p.steamid))
             p.gameextrainfo) := by
  rw [friendStep_fst]
  cases hcond : (friendChanged (storedState (getFriendStatus db qq p.steamid))
      p.personastate
    || friendGameChanged (storedGame (getFriendStatus db qq p.steamid))
         p.gameextrainfo) with
  | false => rfl
  | true =>
      rw [if_pos rfl,
        sendFriendStatusNotification_isSome p.personaname p.gameextrainfo _ _
          (friendGameChanged_ne_empty _ _)]
      exact hcond

theorem friendChanged_iff (prevState : Option Nat) (state : Nat) :
    friendChanged prevState state = true ↔ prevState = some 0 ∧ 0 < state := by
  cases prevState with
  | none => simp [friendChanged]
  | some ps =>
      simp only [friendChanged, Bool.and_eq_true, decide_eq_true_eq,
        Option.some.injEq]
      constructor
      · rintro ⟨_, hpos, hzero⟩
        exact ⟨hzero, hpos⟩
      · rintro ⟨hzero, hpos⟩
        refine ⟨?_, hpos, hzero⟩
        omega

theorem friendGameChanged_iff (prevGame game : String) :
    friendGameChanged prevGame game = true ↔ game ≠ "" ∧ game ≠ prevGame := by
  simp only [friendGameChanged, Bool.and_eq_true, decide_eq_true_eq]
  constructor
  · rintro ⟨h1, h2⟩
    exact ⟨h2, fun h => h1 h.symm⟩
  · rintro ⟨h1, h2⟩
    exact ⟨fun h => h2 h.symm, h1⟩

/-! ## Claims -/

/-- C1 (counterexample): a friend with no prior stored `FriendState` row whose
first observation carries a non-empty activity string does trigger a
notification — the empty-table lookup returns no row, yet `friendStep`
produces a message, refuting "for a friend with no prior stored FriendState
row (first-ever observation) no notification fires at all". -/
theorem firstObservationNotifies :
    (friendStep "u1" ⟨"f1", "Bob", 1, "Dota 2"⟩ ([] : FriendDb)).1.isSome = true := by
  rfl

/-- C1 (amended): a notification fires if and only if either a prior row exists
with stored presence offline (0) and the newly observed presence is
non-offline, or the newly observed activity is non-empty and differs from the
stored activity — where a friend with no prior row has stored activity equal
to the empty string, so a first-ever observation notifies exactly when its
observed activity is non-empty. -/
theorem friendNotification_iff (qq : String) (p : Player) (db : FriendDb) :
    (friendStep qq p db).1.isSome = true ↔
      ((∃ pg, getFriendStatus db qq p.steamid = some (0, pg)) ∧ 0 < p.personastate)
      ∨ (p.gameextrainfo ≠ "" ∧
          p.gameextrainfo ≠ storedGame (getFriendStatus db qq p.steamid)) := by
  rw [friendStep_isSome, Bool.or_eq_true, friendChanged_iff, friendGameChanged_iff]
  cases hOld : getFriendStatus db qq p.steamid with
  | none => simp [storedState]
  | some pr => simp [storedState, Prod.ext_iff, eq_comm (a := pr.1)]

/-- C4: news notifications are idempotent per `(game_id, news_item_id)`:
re-processing an item just processed is a silent no-op (no notification, table
unchanged), and an item with no `NewsSeen` row is notified on first
processing — so feeding the same item id twice produces exactly one
notification. -/
theorem newsItem_processed_once (db : NewsDb) (appid : Nat) (newsId : String) :
    processNewsItem (processNewsItem db appid newsId).2 appid newsId =
        (false, (processNewsItem db appid newsId).2)
      ∧ (checkNewsSent db appid newsId = none →
          (processNewsItem db appid newsId).1 = true) := by
  constructor
  · rw [processNewsItem_def (processNewsItem db appid newsId).2,
      checkNewsSent_after db appid newsId]
    rfl
  · intro h
    rw [processNewsItem_def, h]
    rfl

/-- C4 (witness): instantiated at the empty table, `appid = 10`, item `"n1"`:
the no-row hypothesis is discharged by evaluation. -/
theorem newsItem_processed_once_witness :
    processNewsItem (processNewsItem ([] : NewsDb) 10 "n1").2 10 "n1" =
        (false, (processNewsItem ([] : NewsDb) 10 "n1").2)
      ∧ (processNewsItem ([] : NewsDb) 10 "n1").1 = true :=
  ⟨(newsItem_processed_once ([] : NewsDb) 10 "n1").1,
   (newsItem_processed_once ([] : NewsDb) 10 "n1").2 rfl⟩

/-- C7: after every evaluated friend the `friend_status` row is upserted with
the newly observed presence and activity regardless of the notification
outcome, and the upsert is idempotent: applying the same observed state twice
yields the same stored table. -/
theorem friendState_upserted_always (qq : String) (p : Player) (db : FriendDb) :
    (friendStep qq p db).2 =
        updateFriendStatus db qq p.steamid p.personastate p.gameextrainfo
      ∧ ∀ (q f : String) (s : Nat) (g : String) (d : FriendDb),
          updateFriendStatus (updateFriendStatus d q f s g) q f s g =
            updateFriendStatus d q f s g :=
  ⟨rfl, fun q f s g d => upsertRow_idem d (q, f) (s, g)⟩

/-- C2 (code-bug evaluation): `_is_muted_time` tests
`start_time <= current_time <= end_time` with no wrap handling, so the
docstring's own example window `"23:00-07:00"` (start later than end) never
suppresses anything: at 23:30, 00:00 and 06:59 — where the spec requires
suppression — the code returns `False`, and it also returns `False` at 07:01
and 22:59. -/
theorem mutedWindowNeverWraps :
    isMutedTime (23 * 60 + 30) ["23:00-07:00"] = false
    ∧ isMutedTime 0 ["23:00-07:00"] = false
    ∧ isMutedTime (6 * 60 + 59) ["23:00-07:00"] = false
    ∧ isMutedTime (7 * 60 + 1) ["23:00-07:00"] = false
    ∧ isMutedTime (22 * 60 + 59) ["23:00-07:00"] = false := by
  decide

/-- C10: the quiet-hours check is total on arbitrary input: the empty window
list never suppresses, and a window entry that does not parse as
`"HH:MM-HH:MM"` is skipped — dropping it leaves the result unchanged, so a
malformed entry never causes suppression by itself. -/
theorem mutedTimeTotal (now : Nat) (r : String) (rest : List String)
    (h : parseMuteRange r = none) :
    isMutedTime now [] = false
    ∧ isMutedTime now (r :: rest) = isMutedTime now rest := by
  refine ⟨rfl, ?_⟩
  simp [isMutedTime, h]

/-- C10 (witness): instantiated at 10:00 with the malformed entry `"bogus"`
ahead of a well-formed window. -/
theorem mutedTimeTotal_witness :
    parseMuteRange "bogus" = none
    ∧ (isMutedTime 600 [] = false
        ∧ isMutedTime 600 ("bogus" :: ["10:00-11:00"]) =
            isMutedTime 600 ["10:00-11:00"]) :=
  ⟨by decide, mutedTimeTotal 600 "bogus" ["10:00-11:00"] (by decide)⟩

/-- C3 (counterexample): with `desired = 100` and prior price initially
absent, the observation sequence `[120, 90, 80, 95, 85]` fires the target
notification only at the 90 observation: at the 85 observation the stored
prior price is 95, which is not strictly greater than 100, so — contrary to
the claim — no notification fires at 85. -/
theorem priceTargetSequence :
    runPriceTargets 100 none [120, 90, 80, 95, 85] =
      [false, true, false, false, false] := by
  decide

/-- C3 (amended): the target-reached notification fires if and only if
`current_price ≤ desired_price` and the previously stored price was absent or
strictly greater than `desired_price`; over the sequence
`[120, 90, 80, 95, 85]` with `desired = 100` it therefore fires exactly once,
at the 90 observation (at 85 the stored prior 95 is not strictly above the
target, so there is no re-trigger). -/
theorem priceTargetEdgeTriggered :
    (∀ (desired cur : ℚ) (lastPrice : Option ℚ),
        priceTargetFires desired lastPrice cur = true ↔
          (cur ≤ desired ∧
            (lastPrice = none ∨ ∃ l, lastPrice = some l ∧ desired < l)))
      ∧ (runPriceTargets 100 none [120, 90, 80, 95, 85]).getD 1 false = true
      ∧ (runPriceTargets 100 none [120, 90, 80, 95, 85]).count true = 1 := by
  refine ⟨?_, by decide, by decide⟩
  intro desired cur lastPrice
  cases lastPrice with
  | none => simp [priceTargetFires]
  | some l => simp [priceTargetFires]

/-- C5: in a discount-pass tick a notification `(qq, game)` is emitted exactly
for the subscriptions with the deals flag set whose appid's string form is a
key of the lookup built from the featured specials; the pass keeps no stored
state, so over two consecutive ticks with the same listing every notification
of one tick occurs exactly twice. -/
theorem discountRenotifiesEveryTick (subs : List Subscription)
    (specials : List SpecialGame) (n : String × SpecialGame) :
    (n ∈ discountPass subs specials ↔
        ∃ s, s ∈ subs ∧ s.deals = true ∧ s.qq = n.1 ∧
          dictGet (discountMapOf specials) (toString s.appid) = some n.2)
      ∧ (discountTwoTicks subs specials).count n =
          2 * (discountPass subs specials).count n := by
  constructor
  · simp only [discountPass, getDealsSubscriptions, List.mem_filterMap,
      List.mem_map, List.mem_filter, Option.map_eq_some']
    constructor
    · rintro ⟨a, ⟨s, ⟨hs, hd⟩, rfl⟩, g, hg, rfl⟩
      exact ⟨s, hs, hd, rfl, hg⟩
    · rintro ⟨s, hs, hd, hq, hg⟩
      refine ⟨(s.qq, s.appid), ⟨s, ⟨hs, hd⟩, rfl⟩, n.2, hg, ?_⟩
      rw [hq]
  · simp [discountTwoTicks, List.count_append, two_mul]

/-- C6: for a watch with a successfully parsed current price and a positive
configured threshold, the volatility notification fires exactly when a prior
observed price existed and `|current − prior| / prior × 100` is at least the
threshold, independently of the target-reached test — and both notifications
can fire in the same tick, e.g. threshold 15, desired 100, prior 200,
current 90. -/
theorem volatilityNotification (threshold desired cur : ℚ)
    (lastPrice : Option ℚ) (hth : 0 < threshold) :
    ((processWatch threshold desired lastPrice cur).volatilityFired = true ↔
        ∃ l, lastPrice = some l ∧ threshold ≤ |cur - l| / l * 100)
      ∧ processWatch 15 100 (some 200) 90 =
          { targetFired := true, volatilityFired := true, newLastPrice := 90 } := by
  constructor
  · cases lastPrice with
    | none => simp [processWatch, volatilityFires]
    | some l =>
        by_cases hl : 0 < l
        · simp [processWatch, volatilityFires, hl]
        · have hl0 : l ≤ 0 := not_lt.mp hl
          have hexpr : |cur - l| / l * 100 ≤ 0 := by
            rcases lt_or_eq_of_le hl0 with h0 | h0
            · have h1 : |cur - l| / l ≤ 0 :=
                div_nonpos_iff.mpr (Or.inl ⟨abs_nonneg _, hl0⟩)
              exact mul_nonpos_of_nonpos_of_nonneg h1 (by norm_num)
            · rw [h0, div_zero, zero_mul]
          have hnot : ¬ threshold ≤ |cur - l| / l * 100 := fun hcontra => by
            linarith
          simp [processWatch, volatilityFires, hl, hnot]
  · have htgt : priceTargetFires 100 (some 200) 90 = true := by
      simp [priceTargetFires]
      norm_num
    have hvol : volatilityFires 15 (some 200) 90 = true := by
      simp only [volatilityFires]
      rw [if_pos (by norm_num)]
      rw [decide_eq_true_eq]
      rw [show |(90:ℚ) - 200| = 110 by rw [abs_of_nonpos (by norm_num)]; norm_num]
      norm_num
    simp [processWatch, htgt, hvol]

/-- C6 (witness): the positive-threshold hypothesis discharged at
threshold 15, desired 100, prior price 200, current price 90. -/
theorem volatilityNotification_witness :
    (0:ℚ) < 15
    ∧ (((processWatch 15 100 (some 200) 90).volatilityFired = true ↔
          ∃ l, (some (200:ℚ)) = some l ∧ (15:ℚ) ≤ |(90:ℚ) - l| / l * 100)
        ∧ processWatch 15 100 (some 200) 90 =
            { targetFired := true, volatilityFired := true, newLastPrice := 90 }) :=
  ⟨by norm_num, volatilityNotification 15 100 90 (some 200) (by norm_num)⟩

/-- C8: a transport failure fetching one user's friend list is returned by the
API client as an empty result instead of an exception, so that user's tick
degenerates to the `continue` branch: the stored state is untouched and the
tick over the remaining bindings proceeds exactly as if the failing user were
absent. -/
theorem transientFailureSkipsUser (fetch : String → FetchOutcome (List String))
    (summaries : List String → List Player) (qq sid : String)
    (rest : List (String × String)) (db : FriendDb)
    (h : fetch sid = FetchOutcome.transportError) :
    requestFriendIds (fetch sid) = []
    ∧ monitorFriendsTick fetch summaries ((qq, sid) :: rest) db =
        monitorFriendsTick fetch summaries rest db := by
  refine ⟨by rw [h]; rfl, ?_⟩
  simp [monitorFriendsTick, h, requestFriendIds]

/-- C8 (witness): instantiated with a fetch oracle that always fails, one
following binding, and the empty table. -/
theorem transientFailureSkipsUser_witness :
    (fun _ : String => (FetchOutcome.transportError : FetchOutcome (List String))) "s1"
        = FetchOutcome.transportError
    ∧ (requestFriendIds
          ((fun _ : String =>
            (FetchOutcome.transportError : FetchOutcome (List String))) "s1") = []
        ∧ monitorFriendsTick
            (fun _ : String => (FetchOutcome.transportError : FetchOutcome (List String)))
            (fun _ => []) [("u1", "s1"), ("u2", "s2")] ([] : FriendDb) =
          monitorFriendsTick
            (fun _ : String => (FetchOutcome.transportError : FetchOutcome (List String)))
            (fun _ => []) [("u2", "s2")] ([] : FriendDb)) :=
  ⟨rfl,
   transientFailureSkipsUser
     (fun _ : String => (FetchOutcome.transportError : FetchOutcome (List String)))
     (fun _ => []) "u1" "s1" [("u2", "s2")] [] rfl⟩

theorem dailyPlaytime_foldl (y : List (Nat × ℚ)) (gs : List OwnedGame) (acc : ℚ) :
    gs.foldl (dailyStep y) acc =
      acc + (gs.map (fun g =>
        max 0 (g.playtimeForever / 60 - (dictGet y g.appid).getD 0))).sum := by
  induction gs generalizing acc with
  | nil => simp
  | cons g rest ih =>
      rw [List.foldl_cons, ih]
      simp only [List.map_cons, List.sum_cons, dailyStep]
      by_cases h : (dictGet y g.appid).getD 0 < g.playtimeForever / 60
      · rw [if_pos h, max_eq_right (by linarith)]
        ring
      · rw [if_neg h, max_eq_left (by linarith [not_lt.mp h])]
        ring

/-- C9: when a snapshot row for yesterday exists, the daily delta is the sum
over today's games of `max(0, today_hours − yesterday_hours)`, a game absent
from yesterday's snapshot contributing its full current hours; in particular
yesterday game 1 at 10 hours, today game 1 at 720 minutes (12 hours) and new
game 2 at 180 minutes (3 hours) gives a delta of 5 hours. -/
theorem dailyDeltaIsSumOfPositiveParts (y : List (Nat × ℚ)) (gs : List OwnedGame) :
    generateDailyPlaytime (some y) gs =
        (gs.map (fun g =>
          max 0 (g.playtimeForever / 60 - (dictGet y g.appid).getD 0))).sum
      ∧ generateDailyPlaytime (some [(1, 10)])
          [⟨1, "A", 720⟩, ⟨2, "B", 180⟩] = 5 := by
  constructor
  · show dailyPlaytime y gs = _
    rw [dailyPlaytime, dailyPlaytime_foldl, zero_add]
  · show dailyPlaytime [(1, 10)] [⟨1, "A", 720⟩, ⟨2, "B", 180⟩] = 5
    rw [dailyPlaytime, dailyPlaytime_foldl, zero_add]
    norm_num [dictGet, List.find?]

end SteamPlugin
